import Mathlib

/-!
Verification of the Element Call session orchestrator and device preview
controller, shallowly embedded from `src/room/GroupCallView.tsx` and
`src/room/VideoPreview.tsx`.

Conventions of the embedding:
* JavaScript `string | undefined` values are `Option String`; the JS
  truthiness test `!x` on such a value is true for both `undefined` and
  the empty string, which we model explicitly.
* Host payload fields that can be `string | null | undefined` are the
  three-valued `JSVal`.
* Each asynchronous handler is embedded as the finite trace (`List Ev`)
  of the observable actions it performs, in the single-threaded
  event-loop order of the JavaScript source: an `await e` contributes the
  invocation of `e` followed by its resolution before the next statement;
  a call that is not awaited contributes its invocation, and its
  resolution is placed after the synchronous remainder of the handler
  body (a promise continuation cannot run before the current task
  completes).
-/

namespace ElementCall

/-- Media kind tag used by device lookups (`audioinput` / `videoinput`). -/
inductive MediaKind
  | audio
  | video
deriving DecidableEq, Repr

/-- A JavaScript value that can be a string, `null`, or `undefined`,
as the `audioInput` / `videoInput` fields of a `JoinCallData` payload. -/
inductive JSVal
  | null
  | undef
  | str (s : String)
deriving DecidableEq, Repr

/-- Coerce a `JSVal` to the `string | undefined` view a callee receives:
`null` and `undefined` both become `none`. -/
def JSVal.toOption : JSVal → Option String
  | .str s => some s
  | _ => none

/-- The `JoinCallData` payload of a host `JoinCall` command
(`audioInput` and `videoInput` device names). -/
structure JoinCallData where
  audioInput : JSVal
  videoInput : JSVal
deriving DecidableEq, Repr

/-- `DeviceChoices` from `src/livekit/useLiveKit`: a selected device id
paired with an enabled flag. -/
structure DeviceChoices where
  selectedId : String
  enabled : Bool
deriving DecidableEq, Repr

/-- `UserChoices`: optional audio and video device choices; a missing
entry means no usable device was resolved for that medium. -/
structure UserChoices where
  audio : Option DeviceChoices := none
  video : Option DeviceChoices := none
deriving DecidableEq, Repr

/-- The remote group-call state observed from the external call object;
`GroupCallView` only distinguishes `Entered` from the rest. -/
inductive GroupCallState
  | notEntered
  | entering
  | entered
deriving DecidableEq, Repr

/-- The inputs that `GroupCallView`'s return statement reads
(GroupCallView.tsx lines 223-296). `livekitServiceURL` is the value of
`groupCall.foci[0]?.livekitServiceUrl ?? Config.get().livekit.livekit_service_url`,
`error` carries the error message when present, and `analyticsEnabled`
is `PosthogAnalytics.instance.isEnabled()`. -/
structure SessionViewState where
  livekitServiceURL : Option String
  error : Option String
  remoteState : GroupCallState
  userChoices : Option UserChoices
  left : Bool
  preload : Bool
  isEmbedded : Bool
  isPasswordlessUser : Bool
  analyticsEnabled : Bool
deriving DecidableEq, Repr

/-- The view variants `GroupCallView` can return: `ErrorView`, the
`ActiveCall` stage, `CallEndedView`, `null`, the full-screen loading
placeholder, and `LobbyView`. -/
inductive ViewSel
  | errorView
  | activeCall
  | callEnded
  | renderNothing
  | loadingScreen
  | lobby
deriving DecidableEq, Repr

/-- JS falsiness of a `string | undefined` value (`!livekitServiceURL`):
true for `undefined` and for the empty string. -/
def isFalsyURL : Option String → Bool
  | none => true
  | some s => s = ""

/-- The view-selection decision chain of `GroupCallView`
(GroupCallView.tsx lines 223-296), embedded branch by branch in source
order: missing service URL, then `error`, then
`state === GroupCallState.Entered && userChoices`, then `left` (with the
passwordless / analytics-and-not-embedded gate for `CallEndedView`),
then `preload`, then `isEmbedded`, else the lobby. -/
def selectView (s : SessionViewState) : ViewSel :=
  if isFalsyURL s.livekitServiceURL then ViewSel.errorView
  else if s.error.isSome then ViewSel.errorView
  else if s.remoteState == GroupCallState.entered && s.userChoices.isSome then ViewSel.activeCall
  else if s.left then
    if s.isPasswordlessUser || (s.analyticsEnabled && !s.isEmbedded) then ViewSel.callEnded
    else ViewSel.renderNothing
  else if s.preload then ViewSel.renderNothing
  else if s.isEmbedded then ViewSel.loadingScreen
  else ViewSel.lobby

/-- The spec's ordered decision table (spec §4.4, rules 1-6; rule 7, the
lobby, is the default of `firstMatchView`): each rule is a guard paired
with the view it selects. -/
def viewRules : List ((SessionViewState → Bool) × (SessionViewState → ViewSel)) :=
  [ (fun s => isFalsyURL s.livekitServiceURL, fun _ => ViewSel.errorView),
    (fun s => s.error.isSome, fun _ => ViewSel.errorView),
    (fun s => s.remoteState == GroupCallState.entered && s.userChoices.isSome,
      fun _ => ViewSel.activeCall),
    (fun s => s.left,
      fun s =>
        if s.isPasswordlessUser || (s.analyticsEnabled && !s.isEmbedded) then ViewSel.callEnded
        else ViewSel.renderNothing),
    (fun s => s.preload, fun _ => ViewSel.renderNothing),
    (fun s => s.isEmbedded, fun _ => ViewSel.loadingScreen) ]

/-- First-match evaluation of an ordered rule table; falls through to
the lobby view when no rule matches. -/
def firstMatchView :
    List ((SessionViewState → Bool) × (SessionViewState → ViewSel)) → SessionViewState → ViewSel
  | [], _ => ViewSel.lobby
  | r :: rs, s => if r.1 s then r.2 s else firstMatchView rs s

/-- A media device as returned by device enumeration
(`Room.getLocalDevices()`): an id, a kind string (`audioinput` /
`videoinput`), and a human-readable label. -/
structure MediaDeviceInfo where
  deviceId : String
  kind : String
  label : String
deriving DecidableEq, Repr

/-- Modelled from the spec: `findDeviceByName` (from `src/media-utils`,
whose body is not among the sources) resolves a human-readable device
name to a concrete device id against the live device list; an unknown
name resolves to nothing (spec §4.5, §7 item 3). A `none` name (the
`undefined` the handler passes when the payload field is absent) matches
no device, since enumerated labels are strings. -/
def findDeviceByName (name : Option String) (kind : String)
    (devices : List MediaDeviceInfo) : Option String :=
  match name with
  | none => none
  | some n => (devices.find? (fun d => d.kind == kind && d.label == n)).map (·.deviceId)

/-- Observable actions of the `GroupCallView` handlers, used as trace
events. -/
inductive Ev
  | getDevices
  | lookup (k : MediaKind) (name : Option String)
  | warnUnknown (k : MediaKind)
  | debugFound (k : MediaKind)
  | setUserChoices (c : UserChoices)
  | enterInvoke
  | enterResolve
  | cacheStartCall
  | trackCallStarted (callId : String)
  | setAlwaysOnScreen (b : Bool)
  | reply
  | setLeft
  | trackCallEnded (callId : String) (participantCount : Nat) (sendInstantly : Bool)
  | leaveInvoke
  | delayMs (ms : Nat)
  | logout
  | sendHangup
  | historyPush
deriving DecidableEq, Repr

/-- The `UserChoices` entry the `onJoin` handler builds for one medium
(GroupCallView.tsx lines 104-134): skipped when the payload field is
strictly `null`; otherwise the resolved id with `enabled := true`, or
nothing when the name resolves to no device. -/
def joinMediumChoice (input : JSVal) (kind : String)
    (devices : List MediaDeviceInfo) : Option DeviceChoices :=
  if input = JSVal.null then none
  else (findDeviceByName input.toOption kind devices).map
    (fun id => { selectedId := id, enabled := true })

/-- The `UserChoices` value `onJoin` passes to `setUserChoices`
(GroupCallView.tsx lines 102-136). -/
def onJoinChoices (p : JoinCallData) (devices : List MediaDeviceInfo) : UserChoices :=
  { audio := joinMediumChoice p.audioInput "audioinput" devices,
    video := joinMediumChoice p.videoInput "videoinput" devices }

/-- The lookup / logging events of one medium's block in `onJoin`
(GroupCallView.tsx lines 104-118 for audio, 120-134 for video): no
events when the field is strictly `null`; otherwise a device lookup
followed by an unknown-input warning or a found-id debug line. -/
def joinMediumEvents (k : MediaKind) (input : JSVal) (kind : String)
    (devices : List MediaDeviceInfo) : List Ev :=
  if input = JSVal.null then []
  else
    match findDeviceByName input.toOption kind devices with
    | none => [Ev.lookup k input.toOption, Ev.warnUnknown k]
    | some _ => [Ev.lookup k input.toOption, Ev.debugFound k]

/-- The trace of the widget `JoinCall` handler `onJoin`
(GroupCallView.tsx lines 97-146), in source order: get the device list,
resolve the audio then the video input name, store the resulting
`UserChoices`, invoke and await `enter()`, cache the start time and
track the call-started event, then issue `setAlwaysOnScreen(true)` and
the host reply (the two promises of the final `Promise.all`, issued in
array order). -/
def onJoinTrace (p : JoinCallData) (devices : List MediaDeviceInfo)
    (callId : String) : List Ev :=
  [Ev.getDevices]
    ++ joinMediumEvents MediaKind.audio p.audioInput "audioinput" devices
    ++ joinMediumEvents MediaKind.video p.videoInput "videoinput" devices
    ++ [Ev.setUserChoices (onJoinChoices p devices),
        Ev.enterInvoke, Ev.enterResolve, Ev.cacheStartCall, Ev.trackCallStarted callId,
        Ev.setAlwaysOnScreen true, Ev.reply]

/-- The trace of the embedded auto-enter effect (GroupCallView.tsx lines
155-163): `enter()` is invoked but not awaited, so the telemetry runs
synchronously right after the invocation and `enter()` resolves only
after the effect body finishes. -/
def embeddedEnterTrace (callId : String) : List Ev :=
  [Ev.enterInvoke, Ev.cacheStartCall, Ev.trackCallStarted callId, Ev.enterResolve]

/-- The trace of the Lobby's `onEnter` callback (GroupCallView.tsx lines
288-291): store the choices and invoke `enter()`; no telemetry is fired
on this path. -/
def lobbyEnterTrace (choices : UserChoices) : List Ev :=
  [Ev.setUserChoices choices, Ev.enterInvoke, Ev.enterResolve]

/-- The final participant count computed by `onLeave`
(GroupCallView.tsx lines 173-176): the sum of the device-map sizes over
all participants. -/
def participantCount (participants : List (String × List String)) : Nat :=
  (participants.map (fun p => p.2.length)).sum

/-- The trace of the user-initiated `onLeave` callback
(GroupCallView.tsx lines 170-203): set `left`, track the call-ended
event with the participant count and `sendInstantly = !!widget`, invoke
`leave()`; when the widget is present, wait the fixed 10 ms settle
delay, clear always-on-screen, log out analytics and send the
`HangupCall` notification; finally navigate home for regular
non-embedded users without analytics consent. -/
def onLeaveTrace (widgetPresent : Bool) (callId : String)
    (participants : List (String × List String))
    (isPasswordlessUser isEmbedded analyticsEnabled : Bool) : List Ev :=
  [Ev.setLeft,
   Ev.trackCallEnded callId (participantCount participants) widgetPresent,
   Ev.leaveInvoke]
    ++ (if widgetPresent then
          [Ev.delayMs 10, Ev.setAlwaysOnScreen false, Ev.logout, Ev.sendHangup]
        else [])
    ++ (if !isPasswordlessUser && !isEmbedded && !analyticsEnabled then [Ev.historyPush]
        else [])

/-- The trace of the host-issued `HangupCall` handler `onHangup`
(GroupCallView.tsx lines 207-211): invoke `leave()`, reply to the host,
clear always-on-screen. No telemetry event appears on this path. -/
def onHangupTrace : List Ev :=
  [Ev.leaveInvoke, Ev.reply, Ev.setAlwaysOnScreen false]

/-- Milliseconds an event takes on the single-threaded timeline: only
the explicit settle delay consumes time. -/
def evDelay : Ev → Nat
  | .delayMs ms => ms
  | _ => 0

/-- Timestamps for a trace: each event is stamped with the time at which
it starts, a delay advancing the clock for everything after it. -/
def withTimes : List Ev → Nat → List (Ev × Nat)
  | [], _ => []
  | e :: rest, t => (e, t) :: withTimes rest (t + evDelay e)

/-- The default-device setting read by `useDefaultDevices`
(VideoPreview.tsx line 71): one device id per media input kind. -/
structure DefaultDevices where
  audioinput : String
  videoinput : String
deriving DecidableEq, Repr

/-- The device-freezing state of the `VideoPreview` controller
(VideoPreview.tsx lines 69-81): `initialDefaultDevices` is the `useRef`
snapshot of the default-device setting taken at initialization, while
`currentDefaultDevices` tracks the live setting, which keeps updating as
the system default changes. -/
structure PreviewControllerState where
  initialDefaultDevices : DefaultDevices
  currentDefaultDevices : DefaultDevices
deriving DecidableEq, Repr

/-- Controller initialization: the `useRef(useDefaultDevices()[0])`
snapshot captures the current default devices exactly once
(VideoPreview.tsx line 71). -/
def initPreviewController (d : DefaultDevices) : PreviewControllerState :=
  { initialDefaultDevices := d, currentDefaultDevices := d }

/-- A change of the system default devices during the controller's
lifetime: only the live setting moves, the `useRef` snapshot does not. -/
def setDefaultDevices (c : PreviewControllerState) (d : DefaultDevices) :
    PreviewControllerState :=
  { c with currentDefaultDevices := d }

/-- The device ids handed to `usePreviewTracks` for track acquisition
(VideoPreview.tsx lines 73-77): always `initialDefaultDevices.current`,
never the live setting. -/
def acquisitionDeviceIds (c : PreviewControllerState) : DefaultDevices :=
  c.initialDefaultDevices

/-- A local video track as far as this controller observes it. -/
structure LocalVideoTrack where
  trackId : String
deriving DecidableEq, Repr

/-- The gate computed at VideoPreview.tsx line 94:
`requestPermissions = !!videoTrack`. -/
def requestPermissionsFlag (videoTrack : Option LocalVideoTrack) : Bool :=
  videoTrack.isSome

/-- Modelled from the spec: the body of `useMediaDevicesSwitcher` is not
among the sources (only its call site at VideoPreview.tsx lines 95-102
is); per spec §4.2 the switcher requests device-enumeration permissions
only when its `requestPermissions` argument allows it, so it performs
one enumeration-permission request when the flag is true and none when
it is false. -/
def switcherEnumPermissionRequests (requestPermissions : Bool) : Nat :=
  if requestPermissions then 1 else 0

/-- Enumeration-permission requests made by the switcher on one render
of the controller, given the video track available at that render:
the switcher is invoked with the gate of VideoPreview.tsx line 94. -/
def renderPermissionRequests (videoTrack : Option LocalVideoTrack) : Nat :=
  switcherEnumPermissionRequests (requestPermissionsFlag videoTrack)

/-- The preview-controller state the `UserChoices` emission effect reads
(VideoPreview.tsx lines 107-130): the two enabled flags and the two
selected device ids of the media switcher, each a JS
`string | undefined`. -/
structure PreviewState where
  videoEnabled : Bool
  audioEnabled : Bool
  videoInSelectedId : Option String
  audioInSelectedId : Option String
deriving DecidableEq, Repr

/-- A change to one of the four dependencies of the emission effect. -/
inductive PreviewEvent
  | setVideoEnabled (b : Bool)
  | setAudioEnabled (b : Bool)
  | videoInSetSelected (id : Option String)
  | audioInSetSelected (id : Option String)
deriving DecidableEq, Repr

/-- State transition of the preview controller under one change. -/
def applyPreviewEvent (s : PreviewState) : PreviewEvent → PreviewState
  | .setVideoEnabled b => { s with videoEnabled := b }
  | .setAudioEnabled b => { s with audioEnabled := b }
  | .videoInSetSelected id => { s with videoInSelectedId := id }
  | .audioInSetSelected id => { s with audioInSelectedId := id }

/-- `createChoices` from the emission effect (VideoPreview.tsx lines
109-119): a device choice when the id is truthy (present and
non-empty), otherwise `undefined`. -/
def createChoices (enabled : Bool) (deviceId : Option String) : Option DeviceChoices :=
  match deviceId with
  | none => none
  | some id => if id = "" then none else some { selectedId := id, enabled := enabled }

/-- The `UserChoices` value emitted by the effect at VideoPreview.tsx
lines 120-123: both entries recomputed together from the current state. -/
def emitUserChoices (s : PreviewState) : UserChoices :=
  { video := createChoices s.videoEnabled s.videoInSelectedId,
    audio := createChoices s.audioEnabled s.audioInSelectedId }

/-- The states of the controller after each change of a run: the effect
re-runs after every change to one of its dependencies. -/
def previewStates (s : PreviewState) : List PreviewEvent → List PreviewState
  | [] => []
  | e :: es =>
    let s' := applyPreviewEvent s e
    s' :: previewStates s' es

/-- The `UserChoices` emissions of a run: one per change, computed by
the effect from the state at that point. -/
def previewEmissions (s : PreviewState) (es : List PreviewEvent) : List UserChoices :=
  (previewStates s es).map emitUserChoices

/-- A device id as the spec views it: resolved when present and
non-empty, unresolved otherwise. -/
def resolvedId : Option String → Option String
  | none => none
  | some id => if id = "" then none else some id

/-- Events that can occur in the part of `onJoin` that precedes the
`enter()` invocation: device enumeration, per-medium lookups with their
log lines, and the `setUserChoices` store. -/
def isJoinSetup : Ev → Bool
  | .getDevices => true
  | .lookup _ _ => true
  | .warnUnknown _ => true
  | .debugFound _ => true
  | .setUserChoices _ => true
  | _ => false

/-- Recognizer for call-started telemetry events. -/
def isTrackCallStarted : Ev → Bool
  | .trackCallStarted _ => true
  | _ => false

/-- Recognizer for call-ended telemetry events. -/
def isTrackCallEnded : Ev → Bool
  | .trackCallEnded _ _ _ => true
  | _ => false

theorem joinMediumEvents_setup (k : MediaKind) (input : JSVal) (kind : String)
    (devices : List MediaDeviceInfo) :
    ∀ e ∈ joinMediumEvents k input kind devices, isJoinSetup e = true := by
  intro e he
  unfold joinMediumEvents at he
  split at he
  · simp at he
  · split at he <;> simp only [List.mem_cons, List.mem_singleton, List.not_mem_nil, or_false] at he <;>
      rcases he with h | h <;> subst h <;> rfl

/-- The events strictly before the `enter()` invocation in `onJoin` are
all setup events. -/
theorem onJoin_setup_before_enter (p : JoinCallData) (devices : List MediaDeviceInfo) :
    ∀ e ∈ [Ev.getDevices]
        ++ joinMediumEvents MediaKind.audio p.audioInput "audioinput" devices
        ++ joinMediumEvents MediaKind.video p.videoInput "videoinput" devices
        ++ [Ev.setUserChoices (onJoinChoices p devices)],
      isJoinSetup e = true := by
  intro e he
  simp only [List.mem_append, List.mem_singleton] at he
  rcases he with ((h | h) | h) | h
  · subst h; rfl
  · exact joinMediumEvents_setup _ _ _ _ e h
  · exact joinMediumEvents_setup _ _ _ _ e h
  · subst h; rfl

end ElementCall

namespace ElementCall

/-- C1: the view-selection function of the orchestrator agrees, on every
input state, with first-match evaluation of the spec's fixed ordered
rule table; and in particular any state with an error present,
`remoteState = Entered` and `userChoices` present resolves to the Error
view (error outranks Entered), never `ActiveCall`. -/
theorem selectView_firstMatch_and_error_priority :
    (∀ s : SessionViewState, selectView s = firstMatchView viewRules s) ∧
    (∀ (s : SessionViewState) (e : String) (uc : UserChoices),
      selectView { s with error := some e, remoteState := GroupCallState.entered,
                          userChoices := some uc } = ViewSel.errorView) := by
  constructor
  · intro s
    rfl
  · intro s e uc
    simp only [selectView]
    split
    · rfl
    · simp

theorem setup_ev_facts (e : Ev) (h : isJoinSetup e = true) :
    isTrackCallStarted e = false ∧ e ≠ Ev.reply ∧ e ≠ Ev.enterInvoke ∧ e ≠ Ev.enterResolve ∧
      (∀ cid, e ≠ Ev.trackCallStarted cid) ∧ (∀ b, e ≠ Ev.setAlwaysOnScreen b) := by
  cases e <;> simp_all [isJoinSetup, isTrackCallStarted]

theorem countP_joinMediumEvents_started (k : MediaKind) (input : JSVal) (kind : String)
    (devices : List MediaDeviceInfo) :
    (joinMediumEvents k input kind devices).countP isTrackCallStarted = 0 := by
  unfold joinMediumEvents
  split
  · rfl
  · split <;> rfl

/-- C2: in the widget `JoinCall` handler, the success reply is the last
event of the trace, strictly after both the `enter()` invocation and its
resolution; after the resolution come the call-started telemetry and
then the always-on-screen signal and the reply. The decomposition
exhibits the fixed suffix `enter-invoke, enter-resolve, cache-start,
track-started, set-always-on-screen, reply` and shows that none of these
events occurs earlier in the trace, so the reply never precedes the
`enter()` invocation or its resolution, and the telemetry and the two
host messages all follow the resolution. -/
theorem onJoin_reply_after_enter_resolves (p : JoinCallData)
    (devices : List MediaDeviceInfo) (callId : String) :
    ∃ pre,
      onJoinTrace p devices callId =
        pre ++ [Ev.enterInvoke, Ev.enterResolve, Ev.cacheStartCall,
                Ev.trackCallStarted callId, Ev.setAlwaysOnScreen true, Ev.reply] ∧
      Ev.reply ∉ pre ∧ Ev.enterInvoke ∉ pre ∧ Ev.enterResolve ∉ pre ∧
      Ev.trackCallStarted callId ∉ pre ∧ Ev.setAlwaysOnScreen true ∉ pre := by
  refine ⟨[Ev.getDevices]
      ++ joinMediumEvents MediaKind.audio p.audioInput "audioinput" devices
      ++ joinMediumEvents MediaKind.video p.videoInput "videoinput" devices
      ++ [Ev.setUserChoices (onJoinChoices p devices)], ?_, ?_, ?_, ?_, ?_, ?_⟩
  · simp [onJoinTrace]
  · intro h
    exact (setup_ev_facts _ (onJoin_setup_before_enter p devices _ h)).2.1 rfl
  · intro h
    exact (setup_ev_facts _ (onJoin_setup_before_enter p devices _ h)).2.2.1 rfl
  · intro h
    exact (setup_ev_facts _ (onJoin_setup_before_enter p devices _ h)).2.2.2.1 rfl
  · intro h
    exact (setup_ev_facts _ (onJoin_setup_before_enter p devices _ h)).2.2.2.2.1 callId rfl
  · intro h
    exact (setup_ev_facts _ (onJoin_setup_before_enter p devices _ h)).2.2.2.2.2 true rfl

/-- C3 counterexample: the Lobby's `onEnter` path completes `enter()`
(the trace contains the resolution event) yet fires zero call-started
telemetry events, refuting the claim that every successful `enter()`
completion is accompanied by exactly one such event. -/
theorem lobbyEnter_completed_without_callStarted :
    Ev.enterResolve ∈ lobbyEnterTrace { audio := none, video := none } ∧
      (lobbyEnterTrace { audio := none, video := none }).countP isTrackCallStarted = 0 := by
  decide

/-- C3 amended: the widget `JoinCall` path fires the call-started event
exactly once, after `enter()` resolves; the embedded auto-enter path
fires it exactly once but before `enter()` resolves, since `enter()` is
invoked without being awaited; and the Lobby enter path fires no
call-started event at all even though `enter()` completes. -/
theorem callStarted_emission_per_path :
    (∀ (p : JoinCallData) (devices : List MediaDeviceInfo) (callId : String),
      (onJoinTrace p devices callId).countP isTrackCallStarted = 1 ∧
      ∃ pre,
        onJoinTrace p devices callId =
          pre ++ [Ev.enterResolve, Ev.cacheStartCall, Ev.trackCallStarted callId,
                  Ev.setAlwaysOnScreen true, Ev.reply] ∧
        pre.countP isTrackCallStarted = 0) ∧
    (∀ callId : String,
      (embeddedEnterTrace callId).countP isTrackCallStarted = 1 ∧
      (embeddedEnterTrace callId)[2]? = some (Ev.trackCallStarted callId) ∧
      (embeddedEnterTrace callId)[3]? = some Ev.enterResolve) ∧
    (∀ c : UserChoices,
      (lobbyEnterTrace c).countP isTrackCallStarted = 0 ∧
      Ev.enterResolve ∈ lobbyEnterTrace c) := by
  refine ⟨?_, ?_, ?_⟩
  · intro p devices callId
    constructor
    · simp [onJoinTrace, List.countP_append, List.countP_cons,
        countP_joinMediumEvents_started, isTrackCallStarted]
    · refine ⟨[Ev.getDevices]
          ++ joinMediumEvents MediaKind.audio p.audioInput "audioinput" devices
          ++ joinMediumEvents MediaKind.video p.videoInput "videoinput" devices
          ++ [Ev.setUserChoices (onJoinChoices p devices), Ev.enterInvoke], ?_, ?_⟩
      · simp [onJoinTrace]
      · simp [List.countP_append, List.countP_cons,
          countP_joinMediumEvents_started, isTrackCallStarted]
  · intro callId
    refine ⟨?_, rfl, rfl⟩
    simp [embeddedEnterTrace, List.countP_cons, isTrackCallStarted]
  · intro c
    constructor
    · simp [lobbyEnterTrace, List.countP_cons, isTrackCallStarted]
    · simp [lobbyEnterTrace]

/-- C4 counterexample: the host-issued `HangupCall` handler invokes
`leave()` but its trace contains zero call-ended telemetry events,
refuting the claim that every path invoking `leave()` fires exactly one
call-ended event. -/
theorem onHangup_leave_without_callEnded :
    Ev.leaveInvoke ∈ onHangupTrace ∧ onHangupTrace.countP isTrackCallEnded = 0 := by
  decide

/-- C4 amended: the user-initiated `onLeave` path fires exactly one
call-ended event, carrying the final participant count (the sum of
device-map sizes over all participants) and an immediate-delivery flag
equal to widget presence; the host-issued `HangupCall` handler invokes
`leave()` without firing any call-ended event. -/
theorem callEnded_emission_on_leave_paths :
    (∀ (w : Bool) (cid : String) (parts : List (String × List String))
        (pU emb ana : Bool),
      (onLeaveTrace w cid parts pU emb ana).countP isTrackCallEnded = 1 ∧
      (onLeaveTrace w cid parts pU emb ana)[1]? =
        some (Ev.trackCallEnded cid (participantCount parts) w)) ∧
    (onHangupTrace.countP isTrackCallEnded = 0 ∧ Ev.leaveInvoke ∈ onHangupTrace) := by
  refine ⟨?_, by decide, by decide⟩
  intro w cid parts pU emb ana
  constructor
  · unfold onLeaveTrace
    rw [List.countP_append, List.countP_append]
    have h1 : ((if w then
          [Ev.delayMs 10, Ev.setAlwaysOnScreen false, Ev.logout, Ev.sendHangup]
        else []) : List Ev).countP isTrackCallEnded = 0 := by
      split <;> rfl
    have h2 : ((if !pU && !emb && !ana then [Ev.historyPush] else []) : List Ev).countP
        isTrackCallEnded = 0 := by
      split <;> rfl
    rw [h1, h2]
    simp [List.countP_cons, isTrackCallEnded]
  · simp [onLeaveTrace]

/-- C5: on a user-initiated leave with the widget present (running
embedded), the timed trace starts with the call-ended telemetry at time
0, the fixed 10 ms settle delay strictly between it and the hangup
notification, and the `HangupCall` notification to the host at time 10,
i.e. no earlier than 10 ms after the analytics event call. -/
theorem hangup_settle_delay (cid : String) (parts : List (String × List String))
    (pU emb ana : Bool) :
    ∃ tail,
      withTimes (onLeaveTrace true cid parts pU emb ana) 0 =
        [(Ev.setLeft, 0),
         (Ev.trackCallEnded cid (participantCount parts) true, 0),
         (Ev.leaveInvoke, 0),
         (Ev.delayMs 10, 0),
         (Ev.setAlwaysOnScreen false, 10),
         (Ev.logout, 10),
         (Ev.sendHangup, 10)] ++ tail := by
  refine ⟨withTimes ((if !pU && !emb && !ana then [Ev.historyPush] else []) : List Ev) 10, ?_⟩
  simp [onLeaveTrace, withTimes, evDelay]

theorem acquisitionDeviceIds_foldl (updates : List DefaultDevices)
    (c : PreviewControllerState) :
    acquisitionDeviceIds (updates.foldl setDefaultDevices c) = acquisitionDeviceIds c := by
  induction updates generalizing c with
  | nil => rfl
  | cons d ds ih => simpa [List.foldl_cons] using ih (setDefaultDevices c d)

/-- C6: the device ids used for preview track acquisition are the ones
captured at controller initialization from the then-current default
devices, and they are unchanged by every subsequent sequence of
default-device changes during the controller instance's lifetime. -/
theorem preview_acquisition_ids_frozen (d : DefaultDevices)
    (updates : List DefaultDevices) :
    acquisitionDeviceIds (initPreviewController d) = d ∧
      acquisitionDeviceIds (updates.foldl setDefaultDevices (initPreviewController d)) = d := by
  exact ⟨rfl, acquisitionDeviceIds_foldl updates (initPreviewController d)⟩

/-- C7: across any sequence of controller renders in which no video
track is yet available, the switcher makes zero device-enumeration
permission requests; and whenever the switcher makes a positive number
of requests, a video track was available at that render. -/
theorem switcher_no_permission_requests_without_video :
    (∀ renders : List (Option LocalVideoTrack),
      (∀ r ∈ renders, r = none) →
      ((renders.map renderPermissionRequests).sum = 0)) ∧
    (∀ vt : Option LocalVideoTrack,
      0 < renderPermissionRequests vt → vt.isSome = true) := by
  constructor
  · intro renders h
    induction renders with
    | nil => rfl
    | cons r rs ih =>
      have hr : r = none := h r (List.mem_cons_self r rs)
      have hrs := ih (fun x hx => h x (List.mem_cons_of_mem r hx))
      subst hr
      simpa [renderPermissionRequests, requestPermissionsFlag,
        switcherEnumPermissionRequests] using hrs
  · intro vt h
    cases vt with
    | none =>
      simp [renderPermissionRequests, requestPermissionsFlag,
        switcherEnumPermissionRequests] at h
    | some t => rfl

/-- C7 witness: two renders without a video track make zero
enumeration-permission requests, and a render making a positive number
of requests has a video track. -/
theorem switcher_no_permission_requests_without_video_witness :
    ((([none, none] : List (Option LocalVideoTrack)).map renderPermissionRequests).sum = 0) ∧
      ((some { trackId := "cam-1" } : Option LocalVideoTrack).isSome = true) := by
  exact ⟨switcher_no_permission_requests_without_video.1 [none, none] (by decide),
    switcher_no_permission_requests_without_video.2 (some { trackId := "cam-1" }) (by decide)⟩

theorem createChoices_resolved (enabled : Bool) (deviceId : Option String) :
    createChoices enabled deviceId =
      (resolvedId deviceId).map (fun id => { selectedId := id, enabled := enabled }) := by
  cases deviceId with
  | none => rfl
  | some id =>
    by_cases h : id = "" <;> simp [createChoices, resolvedId, h]

/-- C8: in every run of the preview controller, each emitted
`UserChoices` is computed atomically from the state at the moment of
emission: the video entry is exactly the currently resolved video device
id paired with the current video enabled flag (absent precisely when the
id is unresolved), and likewise for audio, both in the same emission —
so no emission pairs a stale device id with a fresher enabled flag. -/
theorem preview_emissions_atomic (s0 : PreviewState) (es : List PreviewEvent) :
    List.Forall₂
      (fun (em : UserChoices) (st : PreviewState) =>
        em.video = (resolvedId st.videoInSelectedId).map
            (fun id => { selectedId := id, enabled := st.videoEnabled }) ∧
        em.audio = (resolvedId st.audioInSelectedId).map
            (fun id => { selectedId := id, enabled := st.audioEnabled }))
      (previewEmissions s0 es) (previewStates s0 es) := by
  induction es generalizing s0 with
  | nil => exact List.Forall₂.nil
  | cons e es ih =>
    refine List.Forall₂.cons ⟨?_, ?_⟩ (ih (applyPreviewEvent s0 e))
    · exact createChoices_resolved _ _
    · exact createChoices_resolved _ _

/-- C9: the `JoinCall` handler tolerates unknown device names: whenever
a payload's audio (resp. video) input is non-null and its name resolves
to no enumerated device, the handler logs an unknown-input warning, the
corresponding `UserChoices` entry is omitted, and the join still
proceeds, with `enter()` invoked and a reply sent; in particular,
Scenario B's payload of a known audio name and a null video input yields
audio-only choices, and its full trace shows the reply after
`enter()` resolves. -/
theorem onJoin_unknown_device_tolerance :
    (∀ (p : JoinCallData) (devices : List MediaDeviceInfo) (callId : String),
      p.audioInput ≠ JSVal.null →
      findDeviceByName p.audioInput.toOption "audioinput" devices = none →
      Ev.warnUnknown MediaKind.audio ∈ onJoinTrace p devices callId ∧
      (onJoinChoices p devices).audio = none ∧
      Ev.enterInvoke ∈ onJoinTrace p devices callId ∧
      Ev.reply ∈ onJoinTrace p devices callId) ∧
    (∀ (p : JoinCallData) (devices : List MediaDeviceInfo) (callId : String),
      p.videoInput ≠ JSVal.null →
      findDeviceByName p.videoInput.toOption "videoinput" devices = none →
      Ev.warnUnknown MediaKind.video ∈ onJoinTrace p devices callId ∧
      (onJoinChoices p devices).video = none ∧
      Ev.enterInvoke ∈ onJoinTrace p devices callId ∧
      Ev.reply ∈ onJoinTrace p devices callId) ∧
    (onJoinChoices { audioInput := JSVal.str "Built-in Mic", videoInput := JSVal.null }
        [{ deviceId := "mic-1", kind := "audioinput", label := "Built-in Mic" }] =
      { audio := some { selectedId := "mic-1", enabled := true }, video := none }) ∧
    (onJoinTrace { audioInput := JSVal.str "Built-in Mic", videoInput := JSVal.null }
        [{ deviceId := "mic-1", kind := "audioinput", label := "Built-in Mic" }] "call-1" =
      [Ev.getDevices, Ev.lookup MediaKind.audio (some "Built-in Mic"),
       Ev.debugFound MediaKind.audio,
       Ev.setUserChoices
         { audio := some { selectedId := "mic-1", enabled := true }, video := none },
       Ev.enterInvoke, Ev.enterResolve, Ev.cacheStartCall, Ev.trackCallStarted "call-1",
       Ev.setAlwaysOnScreen true, Ev.reply]) := by
  refine ⟨?_, ?_, by decide, by decide⟩
  · intro p devices callId h hf
    have hA : joinMediumEvents MediaKind.audio p.audioInput "audioinput" devices =
        [Ev.lookup MediaKind.audio p.audioInput.toOption, Ev.warnUnknown MediaKind.audio] := by
      unfold joinMediumEvents
      rw [if_neg h, hf]
    refine ⟨?_, ?_, ?_, ?_⟩
    · simp [onJoinTrace, hA]
    · simp [onJoinChoices, joinMediumChoice, if_neg h, hf]
    · simp [onJoinTrace]
    · simp [onJoinTrace]
  · intro p devices callId h hf
    have hV : joinMediumEvents MediaKind.video p.videoInput "videoinput" devices =
        [Ev.lookup MediaKind.video p.videoInput.toOption, Ev.warnUnknown MediaKind.video] := by
      unfold joinMediumEvents
      rw [if_neg h, hf]
    refine ⟨?_, ?_, ?_, ?_⟩
    · simp [onJoinTrace, hV]
    · simp [onJoinChoices, joinMediumChoice, if_neg h, hf]
    · simp [onJoinTrace]
    · simp [onJoinTrace]

/-- C9 witness: a payload naming a non-existent audio device against an
empty device list satisfies the hypotheses, and the handler warns, omits
the audio entry, and still enters and replies. -/
theorem onJoin_unknown_device_tolerance_witness :
    ({ audioInput := JSVal.str "Ghost Mic", videoInput := JSVal.null } : JoinCallData).audioInput
        ≠ JSVal.null ∧
    findDeviceByName (JSVal.str "Ghost Mic").toOption "audioinput" [] = none ∧
    (Ev.warnUnknown MediaKind.audio ∈
        onJoinTrace { audioInput := JSVal.str "Ghost Mic", videoInput := JSVal.null } [] "c1" ∧
      (onJoinChoices { audioInput := JSVal.str "Ghost Mic", videoInput := JSVal.null } []).audio
        = none ∧
      Ev.enterInvoke ∈
        onJoinTrace { audioInput := JSVal.str "Ghost Mic", videoInput := JSVal.null } [] "c1" ∧
      Ev.reply ∈
        onJoinTrace { audioInput := JSVal.str "Ghost Mic", videoInput := JSVal.null } [] "c1") := by
  exact ⟨by decide, by decide,
    onJoin_unknown_device_tolerance.1
      { audioInput := JSVal.str "Ghost Mic", videoInput := JSVal.null } [] "c1"
      (by decide) (by decide)⟩

theorem lookup_kind_not_mem (k k' : MediaKind) (input : JSVal) (kind : String)
    (devices : List MediaDeviceInfo) (name : Option String) (h : k' ≠ k) :
    Ev.lookup k' name ∉ joinMediumEvents k input kind devices := by
  intro hmem
  unfold joinMediumEvents at hmem
  split at hmem
  · simp at hmem
  · split at hmem <;>
      simp only [List.mem_cons, List.mem_singleton, List.not_mem_nil, or_false] at hmem <;>
      rcases hmem with heq | heq <;> simp_all

/-- C10: device-name resolution in `onJoin` is skipped only for a
strictly null input field: a payload whose audio (resp. video) field is
absent/undefined still performs a device lookup with the undefined name,
which matches no device, so the handler logs the unknown-input warning
and omits that medium's entry from `UserChoices`; whereas with a null
field no lookup for that medium occurs at all. -/
theorem onJoin_null_vs_undefined :
    (∀ (v : JSVal) (devices : List MediaDeviceInfo) (callId : String),
      Ev.lookup MediaKind.audio none ∈
          onJoinTrace { audioInput := JSVal.undef, videoInput := v } devices callId ∧
        Ev.warnUnknown MediaKind.audio ∈
          onJoinTrace { audioInput := JSVal.undef, videoInput := v } devices callId ∧
        (onJoinChoices { audioInput := JSVal.undef, videoInput := v } devices).audio = none) ∧
    (∀ (a : JSVal) (devices : List MediaDeviceInfo) (callId : String),
      Ev.lookup MediaKind.video none ∈
          onJoinTrace { audioInput := a, videoInput := JSVal.undef } devices callId ∧
        Ev.warnUnknown MediaKind.video ∈
          onJoinTrace { audioInput := a, videoInput := JSVal.undef } devices callId ∧
        (onJoinChoices { audioInput := a, videoInput := JSVal.undef } devices).video = none) ∧
    (∀ (v : JSVal) (devices : List MediaDeviceInfo) (callId : String) (name : Option String),
      Ev.lookup MediaKind.audio name ∉
        onJoinTrace { audioInput := JSVal.null, videoInput := v } devices callId) ∧
    (∀ (a : JSVal) (devices : List MediaDeviceInfo) (callId : String) (name : Option String),
      Ev.lookup MediaKind.video name ∉
        onJoinTrace { audioInput := a, videoInput := JSVal.null } devices callId) := by
  refine ⟨?_, ?_, ?_, ?_⟩
  · intro v devices callId
    have hA : joinMediumEvents MediaKind.audio JSVal.undef "audioinput" devices =
        [Ev.lookup MediaKind.audio none, Ev.warnUnknown MediaKind.audio] := by
      simp [joinMediumEvents, findDeviceByName, JSVal.toOption]
    refine ⟨?_, ?_, ?_⟩
    · simp [onJoinTrace, hA]
    · simp [onJoinTrace, hA]
    · simp [onJoinChoices, joinMediumChoice, findDeviceByName, JSVal.toOption]
  · intro a devices callId
    have hV : joinMediumEvents MediaKind.video JSVal.undef "videoinput" devices =
        [Ev.lookup MediaKind.video none, Ev.warnUnknown MediaKind.video] := by
      simp [joinMediumEvents, findDeviceByName, JSVal.toOption]
    refine ⟨?_, ?_, ?_⟩
    · simp [onJoinTrace, hV]
    · simp [onJoinTrace, hV]
    · simp [onJoinChoices, joinMediumChoice, findDeviceByName, JSVal.toOption]
  · intro v devices callId name hmem
    simp only [onJoinTrace, List.mem_append, List.mem_cons, List.mem_singleton,
      List.not_mem_nil, or_false] at hmem
    rcases hmem with ((h | h) | h) | h | h | h | h | h | h | h
    · exact Ev.noConfusion h
    · have : joinMediumEvents MediaKind.audio JSVal.null "audioinput" devices = [] := by
        simp [joinMediumEvents]
      rw [this] at h
      simp at h
    · exact lookup_kind_not_mem MediaKind.video MediaKind.audio v "videoinput" devices name
        (by simp) h
    all_goals exact Ev.noConfusion h
  · intro a devices callId name hmem
    simp only [onJoinTrace, List.mem_append, List.mem_cons, List.mem_singleton,
      List.not_mem_nil, or_false] at hmem
    rcases hmem with ((h | h) | h) | h | h | h | h | h | h | h
    · exact Ev.noConfusion h
    · exact lookup_kind_not_mem MediaKind.audio MediaKind.video a "audioinput" devices name
        (by simp) h
    · have : joinMediumEvents MediaKind.video JSVal.null "videoinput" devices = [] := by
        simp [joinMediumEvents]
      rw [this] at h
      simp at h
    all_goals exact Ev.noConfusion h

end ElementCall
